import Mathlib

/-!
Verification of the multi-provider face-swap gateway
(`src/services/face_swap_gateway.py`).

The Python source is shallowly embedded below:

* Pure helpers (`_validate_input`, `_normalize_base64`, the base-64
  decoder they rely on) become Lean functions on `String` / `List Char`.
* Each provider adapter (`NanoBananaProvider.swap_face`,
  `ReplicateProvider.swap_face`, `PiAPIProvider.swap_face`) becomes a
  function of an explicit environment value describing the responses of
  the remote service (the remote services themselves are external
  collaborators, out of scope of the repository).
* The orchestrator `FaceSwapGateway.swap_face` becomes a function that,
  besides the final result dictionary, returns the trace of events it
  performs (provider invocations with their attempt number and the
  webhook argument passed, and back-off sleeps), so that attempt counts
  and delays can be stated and proved.
-/

/-! ## Generic string helpers (ASCII case folding and prefix tests)

`re.match(pat, data, re.IGNORECASE)` with an anchored alternation of
literal ASCII alternatives is modelled as: the ASCII-lowercased input
starts with one of the lowercase literal alternatives. -/

/-- Boolean prefix test on character lists. -/
def isPrefixOfList : List Char → List Char → Bool
  | [], _ => true
  | _ :: _, [] => false
  | a :: as, b :: bs => a == b && isPrefixOfList as bs

/-- Test that the string `s` starts with `p`
(models Python's `str.startswith`). -/
def strStartsWith (s p : String) : Bool :=
  isPrefixOfList p.data s.data

/-- ASCII lower-casing of one character. -/
def asciiLower (c : Char) : Char :=
  if 'A' ≤ c ∧ c ≤ 'Z' then Char.ofNat (c.toNat + 32) else c

/-- ASCII lower-casing of a string. -/
def lowerStr (s : String) : String :=
  ⟨s.data.map asciiLower⟩

/-! ## Python's lenient base-64 decoder

`base64.b64decode(data)` (no `validate` flag) calls
`binascii.a2b_base64` in lenient mode: characters outside the base-64
alphabet are discarded, a `'='` seen after at least two data characters
of the current quad starts padding, and once padding completes a quad
decoding stops successfully, ignoring the rest; a final incomplete quad
is an error (`Incorrect padding` / `Invalid base64-encoded string`).
The byte output is modelled as `List Nat` (each entry < 256). -/

/-- Value of a base-64 alphabet character, `none` for any other character. -/
def b64CharVal (c : Char) : Option Nat :=
  if 'A' ≤ c ∧ c ≤ 'Z' then some (c.toNat - 65)
  else if 'a' ≤ c ∧ c ≤ 'z' then some (c.toNat - 97 + 26)
  else if '0' ≤ c ∧ c ≤ '9' then some (c.toNat - 48 + 52)
  else if c = '+' then some 62
  else if c = '/' then some 63
  else none

/-- Core loop of `binascii.a2b_base64` in lenient mode.  State:
remaining characters, position in the current quad (0–3), pending bits
of the current quad, number of pad characters seen for the current quad,
and the output bytes in reverse order. -/
def a2bBase64Loop : List Char → Nat → Nat → Nat → List Nat → Option (List Nat)
  | [], quadPos, _, _, out =>
      if quadPos = 0 then some out.reverse else none
  | c :: cs, quadPos, acc, pads, out =>
      if c = '=' then
        if 2 ≤ quadPos ∧ 4 ≤ quadPos + (pads + 1) then some out.reverse
        else if 2 ≤ quadPos then a2bBase64Loop cs quadPos acc (pads + 1) out
        else a2bBase64Loop cs quadPos acc pads out
      else
        match b64CharVal c with
        | none => a2bBase64Loop cs quadPos acc pads out
        | some v =>
          match quadPos with
          | 0 => a2bBase64Loop cs 1 v 0 out
          | 1 => a2bBase64Loop cs 2 (v % 16) 0 ((acc * 4 + v / 16) :: out)
          | 2 => a2bBase64Loop cs 3 (v % 4) 0 ((acc * 16 + v / 4) :: out)
          | _ => a2bBase64Loop cs 0 0 0 ((acc * 64 + v) :: out)

/-- Model of `base64.b64decode(data)`: `some bytes` on success, `none`
when Python raises `binascii.Error`. -/
def pyB64Decode (s : String) : Option (List Nat) :=
  a2bBase64Loop s.data 0 0 0 []

/-! ## Media types, validation and normalization -/

/-- Mirrors the Python enum `FaceSwapMediaType`. -/
inductive FaceSwapMediaType
  | image
  | video
deriving DecidableEq

/-- The `media_name` string used in validation error messages. -/
def mediaName : FaceSwapMediaType → String
  | .image => "image"
  | .video => "video"

/-- Format alternatives of the validation regex for video inputs
(`jpeg|jpg|png|gif|webp|bmp|mp4|avi|mov|webm`). -/
def validateVideoFormats : List String :=
  ["jpeg", "jpg", "png", "gif", "webp", "bmp", "mp4", "avi", "mov", "webm"]

/-- Format alternatives of the validation regex for image inputs
(`jpeg|jpg|png|gif|webp|bmp`). -/
def validateImageFormats : List String :=
  ["jpeg", "jpg", "png", "gif", "webp", "bmp"]

/-- Format alternatives of the normalization regex
(`jpeg|jpg|png|gif|webp|bmp|mp4|avi|mov` — note: no `webm`). -/
def normalizeRegexFormats : List String :=
  ["jpeg", "jpg", "png", "gif", "webp", "bmp", "mp4", "avi", "mov"]

/-- The literal head of a data URI: `data:<media>/<fmt>;base64,`. -/
def dataUriHead (media fmt : String) : String :=
  "data:" ++ media ++ "/" ++ fmt ++ ";base64,"

/-- Model of
`re.match(data_uri_pattern, data, re.IGNORECASE)` for the pattern used
by `_validate_input`: anchored, case-insensitive, with the media
alternation `(image|video)` for video requests and `image` only for
image requests. -/
def matchesValidateRegex (mt : FaceSwapMediaType) (data : String) : Bool :=
  match mt with
  | .video =>
      (["image", "video"]).any fun m =>
        validateVideoFormats.any fun f =>
          strStartsWith (lowerStr data) (dataUriHead m f)
  | .image =>
      validateImageFormats.any fun f =>
        strStartsWith (lowerStr data) (dataUriHead "image" f)

/-- Model of the data-URI regex used by `_normalize_base64`
(`(image|video)/(jpeg|jpg|png|gif|webp|bmp|mp4|avi|mov)`). -/
def matchesNormalizeRegex (data : String) : Bool :=
  (["image", "video"]).any fun m =>
    normalizeRegexFormats.any fun f =>
      strStartsWith (lowerStr data) (dataUriHead m f)

/-- The URL test `data.startswith('http://') or data.startswith('https://')`. -/
def isUrl (data : String) : Bool :=
  strStartsWith data "http://" || strStartsWith data "https://"

/-- Embedding of `FaceSwapGateway._validate_input`.  Returns
`(is_valid, error_message)`. -/
def validateInput (data : String) (mt : FaceSwapMediaType) : Bool × Option String :=
  if isUrl data then (true, none)
  else if matchesValidateRegex mt data then (true, none)
  else
    match pyB64Decode data with
    | some _ => (true, none)
    | none => (false, some ("Invalid input: must be URL or base64 encoded " ++ mediaName mt))

/-- The `format_map` dictionary of `_normalize_base64`, mapping PIL
format names to data-URI tags. -/
def formatMap : List (String × String) :=
  [("JPEG", "jpeg"), ("PNG", "png"), ("GIF", "gif"), ("WEBP", "webp"), ("BMP", "bmp")]

/-- Embedding of `FaceSwapGateway._normalize_base64`.

The image-format sniffing performed by `PIL.Image.open` is an external
collaborator; it is abstracted as the parameter `sniff`, where
`sniff bytes = some f` means `Image.open` succeeded and
`img.format or 'JPEG'` evaluated to the string `f`, and
`sniff bytes = none` means `Image.open` raised (taking the `except`
branch of the source). -/
def normalizeBase64 (sniff : List Nat → Option String) (data : String) : String :=
  if isUrl data then data
  else if matchesNormalizeRegex data then data
  else
    match pyB64Decode data with
    | none => "data:image/jpeg;base64," ++ data
    | some bs =>
      match sniff bs with
      | none => "data:image/jpeg;base64," ++ data
      | some f => "data:image/" ++ ((formatMap.lookup f).getD "jpeg") ++ ";base64," ++ data

/-! ## The uniform result contract

Python returns heterogeneous dictionaries; the union of all keys that
ever appear becomes a structure of optional fields (an absent key is
`none` / `false`). -/

/-- The result dictionary returned by every adapter and by the
orchestrator.  `isAsync` models the `"async"` key. -/
structure SwapResult where
  success : Bool := false
  result_url : Option String := none
  task_id : Option String := none
  status : Option String := none
  message : Option String := none
  provider : Option String := none
  model : Option String := none
  watermark : Option String := none
  error : Option String := none
  error_code : Option String := none
  isAsync : Bool := false
deriving DecidableEq

/-! ## Provider adapters

Each adapter's remote interaction is abstracted as an explicit
environment value; everything else (branching, result construction) is
translated from the source. -/

/-- Value returned by `replicate.run`, as far as the URL-extraction code
can observe it: a list (items already `str()`-converted), an object with
a `url` attribute, or anything else together with its Python truthiness
and `str()` rendering. -/
inductive RunValue
  | listVal (items : List String)
  | urlObj (url : String)
  | other (s : String) (truthy : Bool)

/-- Outcome of one `replicate.run` call bounded by `asyncio.wait_for`. -/
inductive RunOutcome
  | timedOut
  | raised (msg : String)
  | completed (v : RunValue)

/-- Python truthiness of the run output (`if output:`). -/
def runTruthy : RunValue → Bool
  | .listVal items => !items.isEmpty
  | .urlObj _ => true
  | .other _ t => t

/-- The URL-extraction precedence of the source: first element of a
list, else the `url` attribute, else `str(output)`.  Only evaluated on
truthy outputs. -/
def extractUrl : RunValue → String
  | .listVal items => items.headD ""
  | .urlObj u => u
  | .other s _ => s

/-- Embedding of `NanoBananaProvider.swap_face`.  `env` describes the
outcome of the single `replicate.run` call. -/
def nanoBananaSwapFace (env : RunOutcome) (mt : FaceSwapMediaType) : SwapResult :=
  if mt = .video then
    { success := false
      error := some "Nano-Banana does not support video face swap"
      provider := some "Nano-Banana" }
  else
    match env with
    | .timedOut =>
      { success := false
        error := some "Nano-Banana timeout (60s)"
        provider := some "Nano-Banana" }
    | .raised msg =>
      { success := false, error := some msg, provider := some "Nano-Banana" }
    | .completed v =>
      if runTruthy v then
        { success := true
          result_url := some (extractUrl v)
          message := some "Face swap completed via Nano-Banana (Gemini 2.5 Flash Image)"
          provider := some "Nano-Banana"
          model := some "google/nano-banana"
          watermark := some "SynthID (invisible)" }
      else
        { success := false
          error := some "No output from Nano-Banana"
          provider := some "Nano-Banana" }

/-- One iteration of `ReplicateProvider.swap_face`'s model loop: `some`
result on success, `none` when the loop `continue`s to the next model
(timeout, exception, or falsy output). -/
def replicateTryModel (modelId : String) (env : RunOutcome) : Option SwapResult :=
  match env with
  | .timedOut => none
  | .raised _ => none
  | .completed v =>
    if runTruthy v then
      some { success := true
             result_url := some (extractUrl v)
             message := some ("Face swap completed via " ++ modelId)
             provider := some "Replicate"
             model := some modelId }
    else none

/-- Embedding of `ReplicateProvider.swap_face`.  The two sub-models are
tried in priority order: `easel/advanced-face-swap` (priority 1), then
`omniedgeio/face-swap` (priority 2). -/
def replicateSwapFace (envEasel envOmni : RunOutcome) (mt : FaceSwapMediaType) : SwapResult :=
  if mt = .video then
    { success := false
      error := some "Replicate provider does not support video face swap"
      provider := some "Replicate" }
  else
    match replicateTryModel "easel/advanced-face-swap" envEasel with
    | some r => r
    | none =>
      match replicateTryModel "omniedgeio/face-swap" envOmni with
      | some r => r
      | none =>
        { success := false
          error := some "All Replicate models failed or timed out"
          provider := some "Replicate" }

/-- Outcome of the PiAPI task-creation call.  `raised` covers a
transport error, a non-2xx `raise_for_status`, or a missing key in the
JSON (all reach the adapter's generic `except` clause); `ok code taskId`
is a JSON response with body code `code` and `data.task_id = taskId`. -/
inductive CreateOutcome
  | raised (msg : String)
  | ok (code : Nat) (taskId : String)

/-- Outcome of the i-th PiAPI status poll: a raised transport error, or
a JSON response with `data.status`, optionally
`data.output.image_url`/`video_url`, and optionally `data.error`. -/
inductive PollOutcome
  | raised (msg : String)
  | resp (status : String) (outputUrl : Option String) (errMsg : Option String)

/-- Environment of one `PiAPIProvider.swap_face` call.  `pollBudget`
is the number of poll iterations the `while time.time() - start_time <
timeout` loop admits before the adapter gives up. -/
structure PiAPIEnv where
  create : CreateOutcome
  polls : Nat → PollOutcome
  pollBudget : Nat

/-- The polling loop of `PiAPIProvider.swap_face`.  Returns the result
together with the number of poll requests issued. -/
def piapiPollLoop (mt : FaceSwapMediaType) (polls : Nat → PollOutcome)
    (taskId : String) (timeoutSecs : Nat) : Nat → Nat → SwapResult × Nat
  | _, 0 =>
    ({ success := false
       error := some ("Task timeout after " ++ toString timeoutSecs ++ "s")
       provider := some "PiAPI"
       task_id := some taskId }, 0)
  | i, fuel + 1 =>
    match polls i with
    | .raised msg =>
      ({ success := false, error := some msg, provider := some "PiAPI" }, 1)
    | .resp status outputUrl errMsg =>
      if status = "completed" then
        ({ success := true
           result_url := outputUrl
           message := some ("Face swap completed via PiAPI (" ++ mediaName mt ++ ")")
           provider := some "PiAPI"
           task_id := some taskId }, 1)
      else if status = "failed" then
        ({ success := false
           error := some ("Task failed: " ++ errMsg.getD "Unknown error")
           provider := some "PiAPI"
           task_id := some taskId }, 1)
      else
        let rc := piapiPollLoop mt polls taskId timeoutSecs (i + 1) fuel
        (rc.1, rc.2 + 1)

/-- The per-media-type `MODELS` table of `PiAPIProvider` (model id,
task type, timeout in seconds).  Both enum values are present, so
`MODELS.get(media_type.value)` never misses. -/
def piapiModels (mt : FaceSwapMediaType) : Option (String × String × Nat) :=
  match mt with
  | .image => some ("Qubico/image-toolkit", "face-swap", 60)
  | .video => some ("Qubico/video-toolkit", "face-swap", 120)

/-- Embedding of `PiAPIProvider.swap_face`.  Returns the result together
with the number of poll requests issued (0 when no polling happened).
The textual rendering of the whole JSON body inside the
`Failed to create task: {create_response}` message is abbreviated to the
body code; no claim depends on that string's exact contents. -/
def piapiSwapFace (env : PiAPIEnv) (mt : FaceSwapMediaType)
    (webhookUrl : Option String) : SwapResult × Nat :=
  match piapiModels mt with
  | none =>
    ({ success := false
       error := some ("Unsupported media type: " ++ mediaName mt)
       provider := some "PiAPI" }, 0)
  | some cfg =>
    match env.create with
    | .raised msg =>
      ({ success := false, error := some msg, provider := some "PiAPI" }, 0)
    | .ok code taskId =>
      if code ≠ 200 then
        ({ success := false
           error := some ("Failed to create task: code " ++ toString code)
           provider := some "PiAPI" }, 0)
      else
        match webhookUrl with
        | some _ =>
          ({ success := true
             task_id := some taskId
             status := some "pending"
             message := some "Task created, webhook will be called when complete"
             provider := some "PiAPI"
             isAsync := true }, 0)
        | none => piapiPollLoop mt env.polls taskId cfg.2.2 0 env.pollBudget

/-! ## The orchestrator

`FaceSwapGateway.swap_face` iterates the provider chain; for each
provider it runs `retry_count + 1` attempts with exponential back-off.
A provider in the chain is abstracted as its adapter kind (the class of
the Python object, used by the `isinstance(provider, PiAPIProvider)`
test) together with a behaviour mapping each attempt number to what the
awaited `provider.swap_face(...)` call does: raise, or return a result
dictionary.  The returned trace records every adapter invocation (with
the webhook argument the orchestrator passed) and every back-off sleep,
in order. -/

/-- The three concrete provider classes. -/
inductive ProviderKind
  | nanoBanana
  | piapi
  | replicateProv
deriving DecidableEq

/-- What one awaited adapter call does: raise an exception (caught by
the orchestrator's `except` clause) or return a result dictionary. -/
inductive AttemptOutcome
  | raised
  | returned (r : SwapResult)

/-- One entry of `self.providers`: the adapter's class and its observed
behaviour per attempt number. -/
structure ChainProvider where
  kind : ProviderKind
  behav : Nat → AttemptOutcome

/-- Observable events of one `swap_face` call: an adapter invocation
(kind, position in the chain, attempt number, webhook argument passed)
or an `asyncio.sleep` of the given number of seconds. -/
inductive Event
  | attemptEv (kind : ProviderKind) (idx : Nat) (attempt : Nat) (webhook : Option String)
  | sleepEv (secs : Nat)
deriving DecidableEq

/-- The webhook argument the orchestrator passes to a provider:
`webhook_url if isinstance(provider, PiAPIProvider) else None`. -/
def whPass (p : ChainProvider) (wh : Option String) : Option String :=
  if p.kind = .piapi then wh else none

/-- The inner retry loop for one provider: `attemptLoop p wh idx a rem`
runs attempts `a, a+1, ...` while `rem` attempts remain.  Attempt `n > 0`
first sleeps `2 ^ n` seconds.  A raised attempt continues the loop; a
returned success ends the whole call (`some r`); a returned failure
breaks to the next provider (`none`), as does exhausting the loop. -/
def attemptLoop (p : ChainProvider) (wh : Option String) (idx : Nat) :
    Nat → Nat → List Event × Option SwapResult
  | _, 0 => ([], none)
  | a, rem + 1 =>
    let pre : List Event := if a = 0 then [] else [Event.sleepEv (2 ^ a)]
    match p.behav a with
    | .raised =>
      let rc := attemptLoop p wh idx (a + 1) rem
      (pre ++ Event.attemptEv p.kind idx a (whPass p wh) :: rc.1, rc.2)
    | .returned r =>
      (pre ++ [Event.attemptEv p.kind idx a (whPass p wh)],
       if r.success then some r else none)

/-- The aggregate failure returned when the whole chain is exhausted. -/
def allProvidersFailedResult : SwapResult :=
  { success := false
    error := some "All face swap providers failed after retries"
    error_code := some "ALL_PROVIDERS_FAILED" }

/-- The failure returned when `self.providers` is empty. -/
def noProvidersResult : SwapResult :=
  { success := false
    error := some "No face swap providers configured (missing API keys)" }

/-- The outer chain loop: providers in order, each given
`retryCount + 1` attempts; the first returned success ends the call,
otherwise the aggregate failure is produced. -/
def chainLoop (wh : Option String) (retryCount : Nat) :
    List ChainProvider → Nat → List Event × SwapResult
  | [], _ => ([], allProvidersFailedResult)
  | p :: rest, idx =>
    match attemptLoop p wh idx 0 (retryCount + 1) with
    | (evs, some r) => (evs, r)
    | (evs, none) =>
      let rc := chainLoop wh retryCount rest (idx + 1)
      (evs ++ rc.1, rc.2)

/-- Embedding of `FaceSwapGateway.swap_face`: validate target (against
the requested media type) and source (always as an image), normalize
both, short-circuit on an empty chain, then drive the chain.  The
adapter calls themselves are abstracted by each provider's behaviour,
which stands for the outcome of `provider.swap_face` on the normalized
request; `sniff` is the image-format sniffer used by normalization. -/
def swapFace (sniff : List Nat → Option String) (providers : List ChainProvider)
    (target source : String) (mt : FaceSwapMediaType) (retryCount : Nat)
    (wh : Option String) : List Event × SwapResult :=
  let tv := validateInput target mt
  if tv.1 = false then ([], { success := false, error := tv.2 })
  else
    let sv := validateInput source .image
    if sv.1 = false then ([], { success := false, error := sv.2 })
    else
      let _normTarget := normalizeBase64 sniff target
      let _normSource := normalizeBase64 sniff source
      if providers.isEmpty then ([], noProvidersResult)
      else chainLoop wh retryCount providers 0

/-! ## Trace vocabulary: counting attempts, the back-off shape -/

/-- Does this event invoke the provider at chain position `i`? -/
def isAttemptFor (i : Nat) : Event → Bool
  | .attemptEv _ j _ _ => j == i
  | .sleepEv _ => false

/-- Is this event an adapter invocation at all? -/
def isAttemptEvent : Event → Bool
  | .attemptEv _ _ _ _ => true
  | .sleepEv _ => false

/-- Number of invocations of the provider at chain position `i`. -/
def attemptsFor (i : Nat) (evs : List Event) : Nat :=
  evs.countP (isAttemptFor i)

/-- Total number of adapter invocations in a trace. -/
def totalAttempts (evs : List Event) : Nat :=
  evs.countP isAttemptEvent

/-- The trace of `rem` consecutive attempts starting at attempt number
`a` that all raise: each attempt `n > 0` is preceded by exactly one
sleep of `2 ^ n` seconds, attempt 0 by none. -/
def raisedTrace (k : ProviderKind) (w : Option String) (idx : Nat) :
    Nat → Nat → List Event
  | _, 0 => []
  | a, rem + 1 =>
    (if a = 0 then ([] : List Event) else [Event.sleepEv (2 ^ a)]) ++
      Event.attemptEv k idx a w :: raisedTrace k w idx (a + 1) rem

/-! ## Lemmas about the retry loop -/

/-- If every attempt of a provider raises, the retry loop runs all its
remaining attempts, produces the back-off trace, and gives up. -/
theorem attemptLoop_raised_all (p : ChainProvider) (wh : Option String) (idx : Nat)
    (h : ∀ n, p.behav n = .raised) :
    ∀ rem a, attemptLoop p wh idx a rem =
      (raisedTrace p.kind (whPass p wh) idx a rem, none) := by
  intro rem
  induction rem with
  | zero => intro a; rfl
  | succ m ih =>
    intro a
    simp [attemptLoop, raisedTrace, h a, ih (a + 1)]

/-- If attempts `s, …, s+a-1` raise and attempt `s+a` returns `r`, the
retry loop performs exactly those `a+1` attempts (with their back-off
sleeps) and then either succeeds with `r` or gives up, depending on
`r.success`. -/
theorem attemptLoop_returned (p : ChainProvider) (wh : Option String) (idx : Nat)
    (r : SwapResult) :
    ∀ a s rem, (∀ k, k < a → p.behav (s + k) = .raised) →
      p.behav (s + a) = .returned r → a < rem →
      attemptLoop p wh idx s rem =
        (raisedTrace p.kind (whPass p wh) idx s a ++
          (if s + a = 0 then ([] : List Event) else [Event.sleepEv (2 ^ (s + a))]) ++
          [Event.attemptEv p.kind idx (s + a) (whPass p wh)],
         if r.success then some r else none) := by
  intro a
  induction a with
  | zero =>
    intro s rem hprev hret hlt
    obtain ⟨rem', rfl⟩ : ∃ rem', rem = rem' + 1 := ⟨rem - 1, by omega⟩
    simp only [Nat.add_zero] at hret ⊢
    simp [attemptLoop, raisedTrace, hret]
  | succ a ih =>
    intro s rem hprev hret hlt
    obtain ⟨rem', rfl⟩ : ∃ rem', rem = rem' + 1 := ⟨rem - 1, by omega⟩
    have h0 : p.behav s = .raised := by
      have := hprev 0 (by omega)
      simpa using this
    have hprev' : ∀ k, k < a → p.behav (s + 1 + k) = .raised := by
      intro k hk
      have := hprev (k + 1) (by omega)
      have harith : s + (k + 1) = s + 1 + k := by omega
      rwa [harith] at this
    have hret' : p.behav (s + 1 + a) = .returned r := by
      have harith : s + (a + 1) = s + 1 + a := by omega
      rwa [harith] at hret
    have hlt' : a < rem' := by omega
    have hrec := ih (s + 1) rem' hprev' hret' hlt'
    have harith : s + 1 + a = s + (a + 1) := by omega
    rw [harith] at hrec
    have hne : ¬ (s + (a + 1) = 0) := by omega
    simp [attemptLoop, raisedTrace, h0, hrec, hne]

/-- The retry loop only reports `some r` for a returned success. -/
theorem attemptLoop_some_success (p : ChainProvider) (wh : Option String) (idx : Nat) :
    ∀ rem a r, (attemptLoop p wh idx a rem).2 = some r → r.success = true := by
  intro rem
  induction rem with
  | zero => intro a r h; simp [attemptLoop] at h
  | succ m ih =>
    intro a r h
    cases hb : p.behav a with
    | raised =>
      simp [attemptLoop, hb] at h
      exact ih (a + 1) r h
    | returned r' =>
      simp [attemptLoop, hb] at h
      by_cases hs : r'.success = true
      · simp [hs] at h
        exact h ▸ hs
      · simp [Bool.not_eq_true] at hs
        simp [hs] at h

/-- Attempt counts in a back-off trace. -/
theorem attemptsFor_raisedTrace (k : ProviderKind) (w : Option String) (idx i : Nat) :
    ∀ rem a, attemptsFor i (raisedTrace k w idx a rem) =
      if idx = i then rem else 0 := by
  intro rem
  induction rem with
  | zero => intro a; simp [raisedTrace, attemptsFor]
  | succ m ih =>
    intro a
    have ih' := ih (a + 1)
    by_cases hidx : idx = i
    · by_cases ha : a = 0 <;>
        simp [raisedTrace, attemptsFor, ha, hidx, List.countP_cons, List.countP_append,
          isAttemptFor] at ih' ⊢ <;>
        omega
    · by_cases ha : a = 0 <;>
        simp [raisedTrace, attemptsFor, ha, hidx, List.countP_cons, List.countP_append,
          isAttemptFor] at ih' ⊢ <;>
        exact ih'

/-- Total attempts in a back-off trace. -/
theorem totalAttempts_raisedTrace (k : ProviderKind) (w : Option String) (idx : Nat) :
    ∀ rem a, totalAttempts (raisedTrace k w idx a rem) = rem := by
  intro rem
  induction rem with
  | zero => intro a; simp [raisedTrace, totalAttempts]
  | succ m ih =>
    intro a
    have ih' := ih (a + 1)
    by_cases ha : a = 0 <;>
      simp [raisedTrace, totalAttempts, ha, List.countP_cons, List.countP_append,
        isAttemptEvent] at ih' ⊢ <;>
      omega

/-- Every adapter invocation recorded by the retry loop names the
provider's own kind, its own chain position, and the webhook argument
computed by `whPass`. -/
theorem attemptEv_mem_attemptLoop (p : ChainProvider) (wh : Option String) (idx : Nat) :
    ∀ rem a k i n w, Event.attemptEv k i n w ∈ (attemptLoop p wh idx a rem).1 →
      k = p.kind ∧ i = idx ∧ w = whPass p wh := by
  intro rem
  induction rem with
  | zero => intro a k i n w h; simp [attemptLoop] at h
  | succ m ih =>
    intro a k i n w h
    cases hb : p.behav a with
    | raised =>
      simp only [attemptLoop, hb] at h
      rcases List.mem_append.mp h with hpre | hrest
      · by_cases ha : a = 0 <;> simp [ha] at hpre
      · rcases List.mem_cons.mp hrest with heq | hmem
        · simp only [Event.attemptEv.injEq] at heq
          exact ⟨heq.1, heq.2.1, heq.2.2.2⟩
        · exact ih (a + 1) k i n w hmem
    | returned r =>
      simp only [attemptLoop, hb] at h
      rcases List.mem_append.mp h with hpre | hone
      · by_cases ha : a = 0 <;> simp [ha] at hpre
      · rcases List.mem_cons.mp hone with heq | hmem
        · simp only [Event.attemptEv.injEq] at heq
          exact ⟨heq.1, heq.2.1, heq.2.2.2⟩
        · simp at hmem

/-! ## Lemmas about the chain loop -/

theorem attemptEv_mem_chainLoop (wh : Option String) (retry : Nat) :
    ∀ ps idx k i n w, Event.attemptEv k i n w ∈ (chainLoop wh retry ps idx).1 →
      (w = if k = ProviderKind.piapi then wh else none) ∧ idx ≤ i := by
  intro ps
  induction ps with
  | nil => intro idx k i n w h; simp [chainLoop] at h
  | cons p rest ih =>
    intro idx k i n w h
    rcases hal : attemptLoop p wh idx 0 (retry + 1) with ⟨evs, v⟩
    have hmem_evs : Event.attemptEv k i n w ∈ evs →
        (w = if k = ProviderKind.piapi then wh else none) ∧ idx ≤ i := by
      intro hm
      have hall := attemptEv_mem_attemptLoop p wh idx (retry + 1) 0 k i n w
        (by rw [hal]; exact hm)
      obtain ⟨hk, hi, hw⟩ := hall
      subst hk hi hw
      exact ⟨rfl, Nat.le_refl _⟩
    cases v with
    | some r =>
      simp [chainLoop, hal] at h
      exact hmem_evs h
    | none =>
      simp [chainLoop, hal] at h
      rcases h with h | h
      · exact hmem_evs h
      · have hrec := ih (idx + 1) k i n w h
        exact ⟨hrec.1, by omega⟩

theorem attemptsFor_chainLoop_before (wh : Option String) (retry : Nat)
    (ps : List ChainProvider) (idx i : Nat) (hi : i < idx) :
    attemptsFor i (chainLoop wh retry ps idx).1 = 0 := by
  rw [attemptsFor, List.countP_eq_zero]
  intro e he
  cases e with
  | sleepEv s => simp [isAttemptFor]
  | attemptEv k j n w =>
    have hj := (attemptEv_mem_chainLoop wh retry ps idx k j n w he).2
    simp [isAttemptFor]
    omega

theorem chainLoop_raised_all (wh : Option String) (retry : Nat) :
    ∀ ps idx, (∀ p ∈ ps, ∀ n, p.behav n = AttemptOutcome.raised) →
      (chainLoop wh retry ps idx).2 = allProvidersFailedResult ∧
      totalAttempts (chainLoop wh retry ps idx).1 = ps.length * (retry + 1) ∧
      ∀ j, j < ps.length → attemptsFor (idx + j) (chainLoop wh retry ps idx).1 = retry + 1 := by
  intro ps
  induction ps with
  | nil => intro idx h; simp [chainLoop, totalAttempts, attemptsFor]
  | cons p rest ih =>
    intro idx h
    have hp : ∀ n, p.behav n = AttemptOutcome.raised := h p (List.mem_cons_self p rest)
    have hrest : ∀ q ∈ rest, ∀ n, q.behav n = AttemptOutcome.raised :=
      fun q hq => h q (List.mem_cons_of_mem p hq)
    have hal := attemptLoop_raised_all p wh idx hp (retry + 1) 0
    have ihr := ih (idx + 1) hrest
    simp only [chainLoop, hal]
    refine ⟨ihr.1, ?_, ?_⟩
    · have h1 := totalAttempts_raisedTrace p.kind (whPass p wh) idx (retry + 1) 0
      have h2 := ihr.2.1
      simp only [totalAttempts] at h1 h2 ⊢
      simp [List.countP_append, h1, h2, List.length_cons]
      ring
    · intro j hj
      cases j with
      | zero =>
        have h1 := attemptsFor_raisedTrace p.kind (whPass p wh) idx idx (retry + 1) 0
        have h2 := attemptsFor_chainLoop_before wh retry rest (idx + 1) idx (by omega)
        simp only [attemptsFor] at h1 h2 ⊢
        simp [List.countP_append, h1, h2]
      | succ j =>
        have h1 := attemptsFor_raisedTrace p.kind (whPass p wh) idx (idx + (j + 1)) (retry + 1) 0
        have hne : ¬ (idx = idx + (j + 1)) := by omega
        have h2 := ihr.2.2 j (by simpa using hj)
        have harith : idx + 1 + j = idx + (j + 1) := by omega
        rw [harith] at h2
        simp only [attemptsFor] at h1 h2 ⊢
        simp [List.countP_append, h1, h2, hne]

theorem chainLoop_failure_has_error (wh : Option String) (retry : Nat) :
    ∀ ps idx, (chainLoop wh retry ps idx).2.success = false →
      (chainLoop wh retry ps idx).2.error.isSome = true := by
  intro ps
  induction ps with
  | nil => intro idx h; simp [chainLoop, allProvidersFailedResult]
  | cons p rest ih =>
    intro idx h
    rcases hal : attemptLoop p wh idx 0 (retry + 1) with ⟨evs, v⟩
    cases v with
    | some r =>
      have hs := attemptLoop_some_success p wh idx (retry + 1) 0 r (by rw [hal])
      simp [chainLoop, hal] at h ⊢
      simp [hs] at h
    | none =>
      simp [chainLoop, hal] at h ⊢
      exact ih (idx + 1) h

theorem chainLoop_reported_failure (wh : Option String) (retry : Nat)
    (b : ChainProvider) (rest : List ChainProvider) (a : Nat) (r : SwapResult)
    (hprev : ∀ k, k < a → b.behav k = AttemptOutcome.raised)
    (hret : b.behav a = AttemptOutcome.returned r)
    (hr : r.success = false) (ha : a ≤ retry) :
    chainLoop wh retry (b :: rest) 0 =
      ((raisedTrace b.kind (whPass b wh) 0 0 a ++
        (if a = 0 then ([] : List Event) else [Event.sleepEv (2 ^ a)]) ++
        [Event.attemptEv b.kind 0 a (whPass b wh)]) ++ (chainLoop wh retry rest 1).1,
       (chainLoop wh retry rest 1).2) := by
  have hprev0 : ∀ k, k < a → b.behav (0 + k) = AttemptOutcome.raised := by
    intro k hk; simpa using hprev k hk
  have hret0 : b.behav (0 + a) = AttemptOutcome.returned r := by simpa using hret
  have hal := attemptLoop_returned b wh 0 r a 0 (retry + 1) hprev0 hret0 (by omega)
  simp only [Nat.zero_add] at hal
  simp [chainLoop, hal, hr]

theorem chainLoop_returned_success (wh : Option String) (retry : Nat)
    (b : ChainProvider) (rest : List ChainProvider) (a : Nat) (r : SwapResult)
    (hprev : ∀ k, k < a → b.behav k = AttemptOutcome.raised)
    (hret : b.behav a = AttemptOutcome.returned r)
    (hr : r.success = true) (ha : a ≤ retry) :
    chainLoop wh retry (b :: rest) 0 =
      (raisedTrace b.kind (whPass b wh) 0 0 a ++
        (if a = 0 then ([] : List Event) else [Event.sleepEv (2 ^ a)]) ++
        [Event.attemptEv b.kind 0 a (whPass b wh)], r) := by
  have hprev0 : ∀ k, k < a → b.behav (0 + k) = AttemptOutcome.raised := by
    intro k hk; simpa using hprev k hk
  have hret0 : b.behav (0 + a) = AttemptOutcome.returned r := by simpa using hret
  have hal := attemptLoop_returned b wh 0 r a 0 (retry + 1) hprev0 hret0 (by omega)
  simp only [Nat.zero_add] at hal
  simp [chainLoop, hal, hr]

theorem swapFace_valid (sniff : List Nat → Option String) (providers : List ChainProvider)
    (target source : String) (mt : FaceSwapMediaType) (rc : Nat) (wh : Option String)
    (hT : (validateInput target mt).1 = true)
    (hS : (validateInput source FaceSwapMediaType.image).1 = true)
    (hne : providers.isEmpty = false) :
    swapFace sniff providers target source mt rc wh = chainLoop wh rc providers 0 := by
  simp [swapFace, hT, hS, hne]

/-! ## The result-shape invariant of the adapters -/

/-- The shape every adapter result actually satisfies: a failure carries
an error message; a success carries a result URL or a task id; an async
result is a success carrying a task id and the pending status, and no
result URL. -/
def resultShapeOk (r : SwapResult) : Bool :=
  (r.success || r.error.isSome) &&
  (!r.success || r.result_url.isSome || r.task_id.isSome) &&
  (!r.isAsync || (r.success && r.task_id.isSome && !r.result_url.isSome &&
                  r.status == some "pending"))

/-- The polling loop only produces results of the invariant shape. -/
theorem piapiPollLoop_shape (mt : FaceSwapMediaType) (polls : Nat → PollOutcome)
    (taskId : String) (tmo : Nat) :
    ∀ fuel i, resultShapeOk (piapiPollLoop mt polls taskId tmo i fuel).1 = true := by
  intro fuel
  induction fuel with
  | zero => intro i; simp [piapiPollLoop, resultShapeOk]
  | succ m ih =>
    intro i
    cases hp : polls i with
    | raised msg => simp [piapiPollLoop, hp, resultShapeOk]
    | resp status outputUrl errMsg =>
      by_cases hc : status = "completed"
      · simp [piapiPollLoop, hp, hc, resultShapeOk]
      · by_cases hf : status = "failed"
        · simp [piapiPollLoop, hp, hc, hf, resultShapeOk]
        · have ih' := ih (i + 1)
          simp [resultShapeOk] at ih'
          simp [piapiPollLoop, hp, hc, hf, resultShapeOk]
          exact ih'

/-- A `some` outcome of one Replicate sub-model try has the invariant shape. -/
theorem replicateTryModel_shape (mid : String) (env : RunOutcome) (r : SwapResult)
    (h : replicateTryModel mid env = some r) : resultShapeOk r = true := by
  cases env with
  | timedOut => simp [replicateTryModel] at h
  | raised msg => simp [replicateTryModel] at h
  | completed v =>
    by_cases ht : runTruthy v
    · simp [replicateTryModel, ht] at h
      simp [← h, resultShapeOk]
    · simp [replicateTryModel, ht] at h

/-- Claim C4 (amended): every result produced by any of the three
adapters satisfies: a failure (`success=false`) carries an error
message; a success carries a result URL or a task id; an async result is
a success carrying a task id and the pending status, and no result URL.
(The three shapes of the original claim are not mutually exclusive —
see the counterexample theorem for C4.) -/
theorem C4_adapter_result_shapes (mt : FaceSwapMediaType) (nbEnv : RunOutcome)
    (easelEnv omniEnv : RunOutcome) (penv : PiAPIEnv) (webhookUrl : Option String) :
    resultShapeOk (nanoBananaSwapFace nbEnv mt) = true ∧
    resultShapeOk (replicateSwapFace easelEnv omniEnv mt) = true ∧
    resultShapeOk (piapiSwapFace penv mt webhookUrl).1 = true := by
  refine ⟨?_, ?_, ?_⟩
  · cases mt with
    | video => simp [nanoBananaSwapFace, resultShapeOk]
    | image =>
      cases nbEnv with
      | timedOut => simp [nanoBananaSwapFace, resultShapeOk]
      | raised msg => simp [nanoBananaSwapFace, resultShapeOk]
      | completed v =>
        by_cases ht : runTruthy v <;> simp [nanoBananaSwapFace, resultShapeOk, ht]
  · cases mt with
    | video => simp [replicateSwapFace, resultShapeOk]
    | image =>
      cases h1 : replicateTryModel "easel/advanced-face-swap" easelEnv with
      | some r => simpa [replicateSwapFace, h1] using replicateTryModel_shape _ _ _ h1
      | none =>
        cases h2 : replicateTryModel "omniedgeio/face-swap" omniEnv with
        | some r => simpa [replicateSwapFace, h1, h2] using replicateTryModel_shape _ _ _ h2
        | none => simp [replicateSwapFace, h1, h2, resultShapeOk]
  · cases hc : penv.create with
    | raised msg => cases mt <;> simp [piapiSwapFace, piapiModels, hc, resultShapeOk]
    | ok code taskId =>
      by_cases h200 : code = 200
      · cases webhookUrl with
        | some u => cases mt <;> simp [piapiSwapFace, piapiModels, hc, h200, resultShapeOk]
        | none =>
          cases mt <;>
            simpa [piapiSwapFace, piapiModels, hc, h200] using
              piapiPollLoop_shape _ penv.polls taskId _ penv.pollBudget 0
      · cases mt <;> simp [piapiSwapFace, piapiModels, hc, h200, resultShapeOk]

/-- Claim C4, as stated, is false: the PiAPI adapter's polling success
combines a result URL with a task id in one result. -/
theorem C4_counterexample_poll_success_mixes :
    ((piapiSwapFace
        ⟨CreateOutcome.ok 200 "task-1",
         fun _ => PollOutcome.resp "completed" (some "https://r.example/out.jpg") none,
         1⟩
        FaceSwapMediaType.image none).1.result_url.isSome = true) ∧
    ((piapiSwapFace
        ⟨CreateOutcome.ok 200 "task-1",
         fun _ => PollOutcome.resp "completed" (some "https://r.example/out.jpg") none,
         1⟩
        FaceSwapMediaType.image none).1.task_id.isSome = true) ∧
    ((piapiSwapFace
        ⟨CreateOutcome.ok 200 "task-1",
         fun _ => PollOutcome.resp "completed" (some "https://r.example/out.jpg") none,
         1⟩
        FaceSwapMediaType.image none).1.success = true) := by
  decide

/-! ## Claim theorems: the orchestrator -/

/-- Claim C1: for a non-empty chain of N providers and any retry count
r, if every provider raises on every attempt, `swap_face` invokes each
provider exactly r+1 times — N·(r+1) attempts in total — and returns
the aggregate failure result tagged `ALL_PROVIDERS_FAILED`. -/
theorem C1_all_faults_exhaust_chain (sniff : List Nat → Option String)
    (p : ChainProvider) (ps : List ChainProvider) (target source : String)
    (mt : FaceSwapMediaType) (rc : Nat) (wh : Option String)
    (hT : (validateInput target mt).1 = true)
    (hS : (validateInput source FaceSwapMediaType.image).1 = true)
    (hraise : ∀ q ∈ p :: ps, ∀ n, q.behav n = AttemptOutcome.raised) :
    (∀ j, j < (p :: ps).length →
      attemptsFor j (swapFace sniff (p :: ps) target source mt rc wh).1 = rc + 1) ∧
    totalAttempts (swapFace sniff (p :: ps) target source mt rc wh).1 =
      (p :: ps).length * (rc + 1) ∧
    (swapFace sniff (p :: ps) target source mt rc wh).2 = allProvidersFailedResult ∧
    (swapFace sniff (p :: ps) target source mt rc wh).2.error_code =
      some "ALL_PROVIDERS_FAILED" := by
  have hsw := swapFace_valid sniff (p :: ps) target source mt rc wh hT hS (by simp)
  have hc := chainLoop_raised_all wh rc (p :: ps) 0 hraise
  rw [hsw]
  refine ⟨?_, hc.2.1, hc.1, by rw [hc.1]; rfl⟩
  intro j hj
  have hcj := hc.2.2 j hj
  simpa using hcj

/-- Witness for C1: a two-provider chain with one retry makes 2 + 2 = 4
attempts and fails with the aggregate code. -/
theorem C1_all_faults_exhaust_chain_witness :
    (∀ j, j < 2 →
      attemptsFor j (swapFace (fun _ => none)
        [⟨ProviderKind.nanoBanana, fun _ => AttemptOutcome.raised⟩,
         ⟨ProviderKind.piapi, fun _ => AttemptOutcome.raised⟩]
        "https://t.example/x.jpg" "https://s.example/y.jpg"
        FaceSwapMediaType.image 1 none).1 = 2) ∧
    totalAttempts (swapFace (fun _ => none)
        [⟨ProviderKind.nanoBanana, fun _ => AttemptOutcome.raised⟩,
         ⟨ProviderKind.piapi, fun _ => AttemptOutcome.raised⟩]
        "https://t.example/x.jpg" "https://s.example/y.jpg"
        FaceSwapMediaType.image 1 none).1 = 4 ∧
    (swapFace (fun _ => none)
        [⟨ProviderKind.nanoBanana, fun _ => AttemptOutcome.raised⟩,
         ⟨ProviderKind.piapi, fun _ => AttemptOutcome.raised⟩]
        "https://t.example/x.jpg" "https://s.example/y.jpg"
        FaceSwapMediaType.image 1 none).2.error_code = some "ALL_PROVIDERS_FAILED" := by
  have h := C1_all_faults_exhaust_chain (fun _ => none)
    ⟨ProviderKind.nanoBanana, fun _ => AttemptOutcome.raised⟩
    [⟨ProviderKind.piapi, fun _ => AttemptOutcome.raised⟩]
    "https://t.example/x.jpg" "https://s.example/y.jpg"
    FaceSwapMediaType.image 1 none (by decide) (by decide)
    (by
      intro q hq n
      simp [List.mem_cons] at hq
      rcases hq with rfl | rfl <;> rfl)
  refine ⟨by simpa using h.1, by simpa using h.2.1, h.2.2.2⟩

/-- Claim C2: when an attempt of the first provider returns a
`success=false` result (after `a` raised attempts), the orchestrator
makes no further attempts against that provider — `a + 1` in total,
exactly 1 when this happens on the first attempt — and continues with
the rest of the chain. -/
theorem C2_reported_failure_advances_chain (sniff : List Nat → Option String)
    (b : ChainProvider) (rest : List ChainProvider) (target source : String)
    (mt : FaceSwapMediaType) (rc : Nat) (wh : Option String) (a : Nat) (r : SwapResult)
    (hT : (validateInput target mt).1 = true)
    (hS : (validateInput source FaceSwapMediaType.image).1 = true)
    (hprev : ∀ k, k < a → b.behav k = AttemptOutcome.raised)
    (hfail : b.behav a = AttemptOutcome.returned r)
    (hr : r.success = false)
    (ha : a ≤ rc) :
    swapFace sniff (b :: rest) target source mt rc wh =
      ((raisedTrace b.kind (whPass b wh) 0 0 a ++
        (if a = 0 then ([] : List Event) else [Event.sleepEv (2 ^ a)]) ++
        [Event.attemptEv b.kind 0 a (whPass b wh)]) ++ (chainLoop wh rc rest 1).1,
       (chainLoop wh rc rest 1).2) ∧
    attemptsFor 0 (swapFace sniff (b :: rest) target source mt rc wh).1 = a + 1 := by
  have hsw := swapFace_valid sniff (b :: rest) target source mt rc wh hT hS (by simp)
  have hcl := chainLoop_reported_failure wh rc b rest a r hprev hfail hr ha
  rw [hsw, hcl]
  refine ⟨rfl, ?_⟩
  have h1 := attemptsFor_raisedTrace b.kind (whPass b wh) 0 0 a 0
  have h2 := attemptsFor_chainLoop_before wh rc rest 1 0 (by omega)
  simp only [attemptsFor] at h1 h2 ⊢
  simp only [if_true] at h1
  by_cases ha0 : a = 0 <;>
    simp [List.countP_append, List.countP_cons, isAttemptFor, h1, h2, ha0, raisedTrace]

/-- Witness for C2: provider 1 reports failure on its very first
attempt; exactly one attempt is made against it before provider 2 is
tried (which then also reports failure, exhausting the chain). -/
theorem C2_reported_failure_advances_chain_witness :
    swapFace (fun _ => none)
      [⟨ProviderKind.nanoBanana,
         fun _ => AttemptOutcome.returned { success := false, error := some "boom" }⟩,
       ⟨ProviderKind.piapi,
         fun _ => AttemptOutcome.returned { success := false, error := some "boom2" }⟩]
      "https://t.example/x.jpg" "https://s.example/y.jpg"
      FaceSwapMediaType.image 2 none =
      ([Event.attemptEv ProviderKind.nanoBanana 0 0 none,
        Event.attemptEv ProviderKind.piapi 1 0 none], allProvidersFailedResult) ∧
    attemptsFor 0 (swapFace (fun _ => none)
      [⟨ProviderKind.nanoBanana,
         fun _ => AttemptOutcome.returned { success := false, error := some "boom" }⟩,
       ⟨ProviderKind.piapi,
         fun _ => AttemptOutcome.returned { success := false, error := some "boom2" }⟩]
      "https://t.example/x.jpg" "https://s.example/y.jpg"
      FaceSwapMediaType.image 2 none).1 = 1 := by
  have h := C2_reported_failure_advances_chain (fun _ => none)
    ⟨ProviderKind.nanoBanana,
      fun _ => AttemptOutcome.returned { success := false, error := some "boom" }⟩
    [⟨ProviderKind.piapi,
      fun _ => AttemptOutcome.returned { success := false, error := some "boom2" }⟩]
    "https://t.example/x.jpg" "https://s.example/y.jpg"
    FaceSwapMediaType.image 2 none 0 { success := false, error := some "boom" }
    (by decide) (by decide) (by intro k hk; omega) rfl rfl (by omega)
  refine ⟨?_, h.2⟩
  rw [h.1]
  rfl

/-- Claim C3: if the first provider's attempts `0, …, a-1` raise and
attempt `a` returns a success, the orchestrator returns that result
without ever invoking a later provider; attempt 0 fires with no
preceding delay and every attempt `n ≥ 1` performed is preceded by
exactly one sleep of `2 ^ n` seconds (visible in the trace shape). -/
theorem C3_success_after_faults_short_circuits (sniff : List Nat → Option String)
    (b : ChainProvider) (rest : List ChainProvider) (target source : String)
    (mt : FaceSwapMediaType) (rc : Nat) (wh : Option String) (a : Nat) (r : SwapResult)
    (hT : (validateInput target mt).1 = true)
    (hS : (validateInput source FaceSwapMediaType.image).1 = true)
    (hprev : ∀ k, k < a → b.behav k = AttemptOutcome.raised)
    (hsucc : b.behav a = AttemptOutcome.returned r)
    (hr : r.success = true)
    (ha : a ≤ rc) :
    swapFace sniff (b :: rest) target source mt rc wh =
      (raisedTrace b.kind (whPass b wh) 0 0 a ++
        (if a = 0 then ([] : List Event) else [Event.sleepEv (2 ^ a)]) ++
        [Event.attemptEv b.kind 0 a (whPass b wh)], r) := by
  have hsw := swapFace_valid sniff (b :: rest) target source mt rc wh hT hS (by simp)
  have hcl := chainLoop_returned_success wh rc b rest a r hprev hsucc hr ha
  rw [hsw, hcl]

/-- Witness for C3: raise on attempt 0, succeed on attempt 1 — the trace
is attempt 0 (no delay), one sleep of 2 = 2^1 seconds, attempt 1, and the
success result is returned with no second provider ever invoked. -/
theorem C3_success_after_faults_short_circuits_witness :
    swapFace (fun _ => none)
      [⟨ProviderKind.nanoBanana,
         fun n => if n = 0 then AttemptOutcome.raised
                  else AttemptOutcome.returned
                    { success := true, result_url := some "https://out.example/r.jpg" }⟩,
       ⟨ProviderKind.piapi, fun _ => AttemptOutcome.raised⟩]
      "https://t.example/x.jpg" "https://s.example/y.jpg"
      FaceSwapMediaType.image 2 none =
      ([Event.attemptEv ProviderKind.nanoBanana 0 0 none,
        Event.sleepEv 2,
        Event.attemptEv ProviderKind.nanoBanana 0 1 none],
       { success := true, result_url := some "https://out.example/r.jpg" }) := by
  have h := C3_success_after_faults_short_circuits (fun _ => none)
    ⟨ProviderKind.nanoBanana,
      fun n => if n = 0 then AttemptOutcome.raised
               else AttemptOutcome.returned
                 { success := true, result_url := some "https://out.example/r.jpg" }⟩
    [⟨ProviderKind.piapi, fun _ => AttemptOutcome.raised⟩]
    "https://t.example/x.jpg" "https://s.example/y.jpg"
    FaceSwapMediaType.image 2 none 1
    { success := true, result_url := some "https://out.example/r.jpg" }
    (by decide) (by decide)
    (by intro k hk; have hk0 : k = 0 := by omega
        subst hk0; rfl)
    rfl rfl (by omega)
  rw [h]
  rfl

/-! ## Claim theorems: validation, normalization, error handling -/

/-- A failed validation always carries an error message. -/
theorem validateInput_false_error (data : String) (mt : FaceSwapMediaType)
    (h : (validateInput data mt).1 = false) : (validateInput data mt).2.isSome = true := by
  unfold validateInput at *
  by_cases h1 : isUrl data <;> simp [h1] at *
  by_cases h2 : matchesValidateRegex mt data <;> simp [h2] at *
  cases hd : pyB64Decode data <;> simp [hd] at *

/-- Claim C6: `swap_face` always returns a structured result (a failure
always carries an error message — the provider behaviours may raise
arbitrarily, the orchestrator's `except` clause absorbs it), and a
failed target validation, a failed source validation, or an empty
provider chain short-circuits with an empty trace: no adapter is ever
invoked. -/
theorem C6_structured_result_short_circuit (sniff : List Nat → Option String)
    (providers : List ChainProvider) (target source : String)
    (mt : FaceSwapMediaType) (rc : Nat) (wh : Option String) :
    ((swapFace sniff providers target source mt rc wh).2.success = false →
      (swapFace sniff providers target source mt rc wh).2.error.isSome = true) ∧
    ((validateInput target mt).1 = false →
      swapFace sniff providers target source mt rc wh =
        ([], { success := false, error := (validateInput target mt).2 })) ∧
    ((validateInput target mt).1 = true →
      (validateInput source FaceSwapMediaType.image).1 = false →
      swapFace sniff providers target source mt rc wh =
        ([], { success := false, error := (validateInput source FaceSwapMediaType.image).2 })) ∧
    (providers = [] → (validateInput target mt).1 = true →
      (validateInput source FaceSwapMediaType.image).1 = true →
      swapFace sniff providers target source mt rc wh = ([], noProvidersResult)) := by
  refine ⟨?_, ?_, ?_, ?_⟩
  · by_cases hT : (validateInput target mt).1 = true
    · by_cases hS : (validateInput source FaceSwapMediaType.image).1 = true
      · cases providers with
        | nil =>
          intro _
          simp [swapFace, hT, hS, noProvidersResult]
        | cons p rest =>
          rw [swapFace_valid sniff (p :: rest) target source mt rc wh hT hS (by simp)]
          exact chainLoop_failure_has_error wh rc (p :: rest) 0
      · have hS' : (validateInput source FaceSwapMediaType.image).1 = false := by
          simpa using hS
        intro _
        simpa [swapFace, hT, hS'] using validateInput_false_error source .image hS'
    · have hT' : (validateInput target mt).1 = false := by simpa using hT
      intro _
      simpa [swapFace, hT'] using validateInput_false_error target mt hT'
  · intro hT
    simp [swapFace, hT]
  · intro hT hSf
    simp [swapFace, hT, hSf]
  · intro hps hT hS
    subst hps
    simp [swapFace, hT, hS]

/-- Witness for C6: an input that is neither a URL, a data URI, nor
decodable base-64 (a single base-64 character is an incomplete quad)
short-circuits with the validation error before any provider runs. -/
theorem C6_structured_result_short_circuit_witness :
    (validateInput "Q" FaceSwapMediaType.image).1 = false ∧
    swapFace (fun _ => none)
      [⟨ProviderKind.nanoBanana, fun _ => AttemptOutcome.raised⟩]
      "Q" "https://s.example/y.jpg" FaceSwapMediaType.image 2 none =
      ([], { success := false,
             error := some "Invalid input: must be URL or base64 encoded image" }) := by
  have h := C6_structured_result_short_circuit (fun _ => none)
    [⟨ProviderKind.nanoBanana, fun _ => AttemptOutcome.raised⟩]
    "Q" "https://s.example/y.jpg" FaceSwapMediaType.image 2 none
  refine ⟨by decide, ?_⟩
  have h2 := h.2.1 (by decide)
  rw [h2]
  rfl

/-- Claim C7: for every string starting with `http://` or `https://`,
normalization is the identity — URLs are never rewritten into embedded
data. -/
theorem C7_normalize_url_identity (sniff : List Nat → Option String) (data : String)
    (h : strStartsWith data "http://" = true ∨ strStartsWith data "https://" = true) :
    normalizeBase64 sniff data = data := by
  have hu : isUrl data = true := by
    rcases h with h | h <;> simp [isUrl, h]
  simp [normalizeBase64, hu]

/-- Witness for C7: a concrete https URL is returned unchanged. -/
theorem C7_normalize_url_identity_witness :
    normalizeBase64 (fun _ => none) "https://example.com/a.jpg" = "https://example.com/a.jpg" :=
  C7_normalize_url_identity (fun _ => none) "https://example.com/a.jpg" (Or.inr (by decide))

/-- Claim C9: the orchestrator passes the caller's webhook URL only to
the PiAPI adapter (every other adapter invocation receives `None`), and
the PiAPI adapter, given a webhook URL and a successful task creation,
returns immediately with the async pending result and performs zero
polls. -/
theorem C9_webhook_routing (sniff : List Nat → Option String)
    (providers : List ChainProvider) (target source : String)
    (mt : FaceSwapMediaType) (rc : Nat) (wh : Option String) :
    (∀ k i n w, Event.attemptEv k i n w ∈ (swapFace sniff providers target source mt rc wh).1 →
      w = if k = ProviderKind.piapi then wh else none) ∧
    (∀ (env : PiAPIEnv) (mt2 : FaceSwapMediaType) (hookUrl taskId : String),
      env.create = CreateOutcome.ok 200 taskId →
      piapiSwapFace env mt2 (some hookUrl) =
        ({ success := true, task_id := some taskId, status := some "pending",
           message := some "Task created, webhook will be called when complete",
           provider := some "PiAPI", isAsync := true }, 0)) := by
  constructor
  · intro k i n w hmem
    by_cases hT : (validateInput target mt).1 = true
    · by_cases hS : (validateInput source FaceSwapMediaType.image).1 = true
      · cases providers with
        | nil => simp [swapFace, hT, hS] at hmem
        | cons p rest =>
          rw [swapFace_valid sniff (p :: rest) target source mt rc wh hT hS (by simp)] at hmem
          exact (attemptEv_mem_chainLoop wh rc (p :: rest) 0 k i n w hmem).1
      · have hS' : (validateInput source FaceSwapMediaType.image).1 = false := by simpa using hS
        simp [swapFace, hT, hS'] at hmem
    · have hT' : (validateInput target mt).1 = false := by simpa using hT
      simp [swapFace, hT'] at hmem
  · intro env mt2 hookUrl taskId hc
    cases mt2 <;> simp [piapiSwapFace, piapiModels, hc]

/-- Witness for C9: with a two-provider chain, the PiAPI invocation in
the trace carries the webhook URL, the Nano-Banana one carries `None`;
and a concrete PiAPI environment returns the pending async result with
zero polls. -/
theorem C9_webhook_routing_witness :
    (Event.attemptEv ProviderKind.piapi 1 0 (some "https://hook.example/cb") ∈
      (swapFace (fun _ => none)
        [⟨ProviderKind.nanoBanana, fun _ => AttemptOutcome.raised⟩,
         ⟨ProviderKind.piapi, fun _ => AttemptOutcome.raised⟩]
        "https://t.example/x.jpg" "https://s.example/y.jpg"
        FaceSwapMediaType.image 0 (some "https://hook.example/cb")).1) ∧
    (some "https://hook.example/cb" : Option String) =
      (if ProviderKind.piapi = ProviderKind.piapi
        then some "https://hook.example/cb" else none) ∧
    piapiSwapFace
        ⟨CreateOutcome.ok 200 "task-9", fun _ => PollOutcome.raised "never", 0⟩
        FaceSwapMediaType.image (some "https://hook.example/cb") =
      ({ success := true, task_id := some "task-9", status := some "pending",
         message := some "Task created, webhook will be called when complete",
         provider := some "PiAPI", isAsync := true }, 0) := by
  have h := C9_webhook_routing (fun _ => none)
    [⟨ProviderKind.nanoBanana, fun _ => AttemptOutcome.raised⟩,
     ⟨ProviderKind.piapi, fun _ => AttemptOutcome.raised⟩]
    "https://t.example/x.jpg" "https://s.example/y.jpg"
    FaceSwapMediaType.image 0 (some "https://hook.example/cb")
  refine ⟨by decide, ?_, ?_⟩
  · exact h.1 ProviderKind.piapi 1 0 (some "https://hook.example/cb") (by decide)
  · exact h.2 ⟨CreateOutcome.ok 200 "task-9", fun _ => PollOutcome.raised "never", 0⟩
      FaceSwapMediaType.image "https://hook.example/cb" "task-9" rfl

/-- Claim C10: the empty string decodes as base-64 (to zero bytes), so
it passes validation for both media kinds; normalization turns it into
the empty-payload jpeg data URI (PIL cannot identify an image in zero
bytes, hence the `sniff [] = none` hypothesis), and the gateway
therefore forwards an empty target and source to the provider chain. -/
theorem C10_empty_string_passes (sniff : List Nat → Option String)
    (mt : FaceSwapMediaType) (hPIL : sniff [] = none) :
    pyB64Decode "" = some [] ∧
    validateInput "" mt = (true, none) ∧
    normalizeBase64 sniff "" = "data:image/jpeg;base64," ∧
    (∀ (p : ChainProvider) (rest : List ChainProvider) (rc : Nat) (wh : Option String),
      swapFace sniff (p :: rest) "" "" mt rc wh = chainLoop wh rc (p :: rest) 0) := by
  have hval : validateInput "" mt = (true, none) := by cases mt <;> decide
  have hvalI : validateInput "" FaceSwapMediaType.image = (true, none) := by decide
  have h1 : isUrl "" = false := rfl
  have h2 : matchesNormalizeRegex "" = false := rfl
  have hd : pyB64Decode "" = some [] := rfl
  refine ⟨rfl, hval, ?_, ?_⟩
  · simp [normalizeBase64, h1, h2, hd, hPIL]
  · intro p rest rc wh
    exact swapFace_valid sniff (p :: rest) "" "" mt rc wh
      (by rw [hval]) (by rw [hvalI]) (by simp)

/-- Witness for C10: concrete instantiation with the always-failing
sniffer and a one-provider chain that reports failure immediately. -/
theorem C10_empty_string_passes_witness :
    validateInput "" FaceSwapMediaType.image = (true, none) ∧
    normalizeBase64 (fun _ => none) "" = "data:image/jpeg;base64," ∧
    swapFace (fun _ => none)
      [⟨ProviderKind.nanoBanana,
        fun _ => AttemptOutcome.returned { success := false, error := some "no" }⟩]
      "" "" FaceSwapMediaType.image 2 none =
      chainLoop none 2
        [⟨ProviderKind.nanoBanana,
          fun _ => AttemptOutcome.returned { success := false, error := some "no" }⟩] 0 := by
  have h := C10_empty_string_passes (fun _ => none) FaceSwapMediaType.image rfl
  exact ⟨h.2.1, h.2.2.1, h.2.2.2
    ⟨ProviderKind.nanoBanana,
      fun _ => AttemptOutcome.returned { success := false, error := some "no" }⟩ [] 2 none⟩

/-- Claim C8 counterexample: for a raw untagged base-64 string, when the
sniffer succeeds but detects a format outside the code's five-entry
format map (PIL reporting `TIFF`), the payload is tagged `jpeg`, not the
sniffed format — so normalization does not always tag with the format
sniffed from the bytes. -/
theorem C8_counterexample_sniffed_format_dropped :
    isUrl "QUJD" = false ∧
    matchesValidateRegex FaceSwapMediaType.image "QUJD" = false ∧
    matchesNormalizeRegex "QUJD" = false ∧
    (pyB64Decode "QUJD").isSome = true ∧
    normalizeBase64 (fun _ => some "TIFF") "QUJD" = "data:image/jpeg;base64,QUJD" ∧
    ¬ normalizeBase64 (fun _ => some "TIFF") "QUJD" = "data:image/tiff;base64,QUJD" := by
  decide

/-- Claim C8 (amended): for a raw untagged string (no URL scheme, no
data-URI head), validation succeeds exactly when the string decodes as
base-64; normalization then tags the payload with the sniffed format
when that format is one of the five in the code's format map, and
defaults to `jpeg` when decoding fails, when sniffing fails or throws,
or when the sniffed format is outside the map. -/
theorem C8_amended_raw_base64 (sniff : List Nat → Option String) (data : String)
    (mt : FaceSwapMediaType)
    (hurl : isUrl data = false)
    (hvr : matchesValidateRegex mt data = false)
    (hnr : matchesNormalizeRegex data = false) :
    ((validateInput data mt).1 = true ↔ (pyB64Decode data).isSome = true) ∧
    (pyB64Decode data = none →
      normalizeBase64 sniff data = "data:image/jpeg;base64," ++ data) ∧
    (∀ bs, pyB64Decode data = some bs →
      (sniff bs = none →
        normalizeBase64 sniff data = "data:image/jpeg;base64," ++ data) ∧
      (∀ f tag, sniff bs = some f → (f, tag) ∈ formatMap →
        normalizeBase64 sniff data = "data:image/" ++ tag ++ ";base64," ++ data) ∧
      (∀ f, sniff bs = some f → formatMap.lookup f = none →
        normalizeBase64 sniff data = "data:image/jpeg;base64," ++ data)) := by
  refine ⟨?_, ?_, ?_⟩
  · cases hd : pyB64Decode data <;> simp [validateInput, hurl, hvr, hd]
  · intro hd
    simp [normalizeBase64, hurl, hnr, hd]
  · intro bs hd
    refine ⟨?_, ?_, ?_⟩
    · intro hs
      simp [normalizeBase64, hurl, hnr, hd, hs]
    · intro f tag hs hmem
      have hlk : formatMap.lookup f = some tag := by
        fin_cases hmem <;> rfl
      simp [normalizeBase64, hurl, hnr, hd, hs, hlk]
    · intro f hs hlk
      simp [normalizeBase64, hurl, hnr, hd, hs, hlk]

/-- Witness for C8 (amended): the raw base-64 string `QUJD` validates,
and with a sniffer reporting PNG it is tagged `png`. -/
theorem C8_amended_raw_base64_witness :
    (validateInput "QUJD" FaceSwapMediaType.image).1 = true ∧
    normalizeBase64 (fun _ => some "PNG") "QUJD" = "data:image/png;base64,QUJD" := by
  have h := C8_amended_raw_base64 (fun _ => some "PNG") "QUJD" FaceSwapMediaType.image
    (by decide) (by decide) (by decide)
  refine ⟨h.1.mpr (by decide), ?_⟩
  have h3 := (h.2.2 [65, 66, 67] (by decide)).2.1 "PNG" "png" rfl (by decide)
  simpa using h3

/-- Claim C5 / code bug: the data URI `data:video/webm;base64,AAAA` is
accepted by validation for video (the validation regex whitelists
`webm`), but the normalization regex omits `webm`, so instead of being
preserved (as `_normalize_base64`'s docstring promises for data URIs) it
falls through to the plain-base-64 branch and is re-wrapped as
`data:image/jpeg;base64,data:video/webm;base64,AAAA` (the decoded bytes
of the stripped string are not an image, so sniffing raises and the
jpeg default applies). -/
theorem C5_webm_data_uri_mangled :
    (validateInput "data:video/webm;base64,AAAA" FaceSwapMediaType.video).1 = true ∧
    matchesNormalizeRegex "data:video/webm;base64,AAAA" = false ∧
    normalizeBase64 (fun _ => none) "data:video/webm;base64,AAAA" =
      "data:image/jpeg;base64,data:video/webm;base64,AAAA" ∧
    ¬ normalizeBase64 (fun _ => none) "data:video/webm;base64,AAAA" =
      "data:video/webm;base64,AAAA" := by
  decide
